import Mathlib

/-!
MOWED `solver_core` : the `SimplexSolver` class

A shallow embedding of `src/solver/solver_core.cpp` and the properties of its
`solve` member function.

Numbers.  The class stores `double` values and never computes with them: the body
of `solve` only writes the constant `0.0` and copies containers.  Every finite
`double` is a rational number, so a `std::vector<double>` of finite values is
embedded as a `List ℚ` and the statements below use exact arithmetic for the
quantities the properties talk about (dot products, comparisons).
-/

set_option autoImplicit false

/-- A `std::vector<double>`. -/
abbrev Vec := List ℚ

/-- A `std::vector<std::vector<double>>`, a list of rows. -/
abbrev Mat := List (List ℚ)

/-- The private data members of `class SimplexSolver`. -/
structure SimplexSolver where
  c_ : Vec
  A_ : Mat
  b_ : Vec
deriving DecidableEq

namespace SimplexSolver

/-- The constructor `SimplexSolver(c, A, b) : c_(c), A_(A), b_(b) {}`: the three
arguments are copied into the members, nothing is checked. -/
def init (c : Vec) (A : Mat) (b : Vec) : SimplexSolver :=
  { c_ := c, A_ := A, b_ := b }

/-- The member function `solve()`.  It is not `const`, so the object is threaded
through: the result is the returned `std::pair` together with the object after
the call.  The body builds `solution(c_.size(), 0.0)` and `objective_value = 0.0`
and returns them; no member is assigned. -/
def solve (self : SimplexSolver) : (Vec × ℚ) × SimplexSolver :=
  let solution : Vec := List.replicate self.c_.length 0
  let objective_value : ℚ := 0
  ((solution, objective_value), self)

end SimplexSolver

/-- What the caller of a C++ function observes: a value that was returned, or an
exception that was thrown. -/
inductive Outcome (α : Type) where
  | returned (value : α)
  | thrown (what : String)
deriving DecidableEq

/-- The expression `SimplexSolver(c, A, b).solve()` as the caller sees it.  Neither
the constructor nor `solve` contains a `throw`, so the outcome is the returned
pair. -/
def solveCall (c : Vec) (A : Mat) (b : Vec) : Outcome (Vec × ℚ) :=
  Outcome.returned (SimplexSolver.init c A b).solve.1

/-! Vocabulary of the properties -/

/-- Dot product of two vectors. -/
def dot (u v : Vec) : ℚ :=
  (List.zipWith (fun a x => a * x) u v).sum

/-- Consistent dimensions: every row of `A` has as many entries as `c`, and `A` has
as many rows as `b` has entries. -/
def DimsMatch (c : Vec) (A : Mat) (b : Vec) : Prop :=
  (∀ row ∈ A, row.length = c.length) ∧ A.length = b.length

instance (c : Vec) (A : Mat) (b : Vec) : Decidable (DimsMatch c A b) := by
  unfold DimsMatch; infer_instance

/-- The rows of `A x ≤ b`, each allowed to exceed its bound by at most `tol`. -/
def RowsHold (tol : ℚ) : Mat → Vec → Vec → Prop
  | [], [], _ => True
  | row :: A, bi :: b, x => dot row x ≤ bi + tol ∧ RowsHold tol A b x
  | _, _, _ => False

instance decRowsHold (tol : ℚ) : (A : Mat) → (b : Vec) → (x : Vec) → Decidable (RowsHold tol A b x)
  | [], [], _ => isTrue trivial
  | row :: A, bi :: b, x =>
      let _ := decRowsHold tol A b x
      inferInstanceAs (Decidable (dot row x ≤ bi + tol ∧ RowsHold tol A b x))
  | [], _ :: _, _ => isFalse (fun h => h)
  | _ :: _, [], _ => isFalse (fun h => h)

/-- Feasibility of `x` for the program `A x ≤ b`, `x ≥ 0` in `n` variables, within
the absolute tolerance `tol`. -/
def Feasible (tol : ℚ) (n : ℕ) (A : Mat) (b : Vec) (x : Vec) : Prop :=
  x.length = n ∧ (∀ xi ∈ x, -tol ≤ xi) ∧ RowsHold tol A b x

instance (tol : ℚ) (n : ℕ) (A : Mat) (b : Vec) (x : Vec) : Decidable (Feasible tol n A b x) := by
  unfold Feasible; infer_instance

/-! Auxiliary lemmas -/

lemma dot_replicate_zero (u : Vec) (n : ℕ) : dot u (List.replicate n 0) = 0 := by
  induction u generalizing n with
  | nil => simp [dot]
  | cons a u ih =>
    cases n with
    | zero => simp [dot]
    | succ n =>
      have h := ih n
      simp only [dot] at h
      simp [dot, List.replicate_succ, h]

lemma solveCall_eq (c : Vec) (A : Mat) (b : Vec) :
    solveCall c A b = Outcome.returned (List.replicate c.length 0, 0) := rfl

lemma feasible_one_iff (tol : ℚ) (A : Mat) (b x : Vec) :
    Feasible tol 1 A b x ↔ ∃ a, x = [a] ∧ -tol ≤ a ∧ RowsHold tol A b [a] := by
  constructor
  · rintro ⟨hlen, hnn, hrows⟩
    obtain ⟨a, rfl⟩ := List.length_eq_one.mp hlen
    exact ⟨a, rfl, hnn a (by simp), hrows⟩
  · rintro ⟨a, rfl, ha, hrows⟩
    exact ⟨rfl, by simpa using ha, hrows⟩

/-! Feasibility and optimality of the returned pair (C1, C2) -/

/-- C1, evaluated at `c = [1]`, `A = [[-1]]`, `b = [-1]` (minimise `x` subject to
`-x ≤ -1`, `x ≥ 0`).  The dimensions are consistent and the program has the optimum
`x = [1]`, yet `solve()` returns the vector `[0]`, which violates row 0 of `A x ≤ b`
by far more than the tolerance `1e-9`. -/
theorem solve_returns_infeasible_point :
    DimsMatch [1] [[-1]] [-1] ∧
    solveCall [1] [[-1]] [-1] = Outcome.returned ([0], 0) ∧
    ¬ Feasible (1 / 1000000000) 1 [[-1]] [-1] [0] ∧
    Feasible 0 1 [[-1]] [-1] [1] ∧
    (∀ x, Feasible 0 1 [[-1]] [-1] x → dot [1] [1] ≤ dot [1] x) := by
  refine ⟨by decide, by decide, ?_, ?_, ?_⟩
  · simp [Feasible, RowsHold, dot]; norm_num
  · simp [Feasible, RowsHold, dot]
  · intro x hx
    obtain ⟨a, rfl, _, hr⟩ := (feasible_one_iff _ _ _ _).mp hx
    simp [RowsHold, dot] at hr ⊢
    linarith

/-- C2, evaluated at `c = [-1]`, `A = [[1]]`, `b = [1]` (minimise `-x` subject to
`x ≤ 1`, `x ≥ 0`).  `solve()` returns the objective value `0`, but the point
`x = [1]` is feasible and has the strictly lower cost `-1`, which is the true
minimum of the program. -/
theorem solve_objective_not_minimal :
    DimsMatch [-1] [[1]] [1] ∧
    solveCall [-1] [[1]] [1] = Outcome.returned ([0], 0) ∧
    Feasible 0 1 [[1]] [1] [1] ∧
    dot [-1] [1] < 0 ∧
    (∀ x, Feasible 0 1 [[1]] [1] x → dot [-1] [1] ≤ dot [-1] x) := by
  refine ⟨by decide, by decide, ?_, ?_, ?_⟩
  · simp [Feasible, RowsHold, dot]
  · simp [dot]
  · intro x hx
    obtain ⟨a, rfl, _, hr⟩ := (feasible_one_iff _ _ _ _).mp hx
    simp [RowsHold, dot] at hr ⊢
    linarith

/-! Consistency of the returned pair (C3) -/

/-- C3: for every `c`, `A` and `b`, the pair `(x, z)` returned by
`SimplexSolver(c, A, b).solve()` has a vector `x` of exactly `length c` entries and
an objective value `z` equal to the dot product `c · x`. -/
theorem solve_pair_consistent (c : Vec) (A : Mat) (b : Vec) :
    ∃ x z, solveCall c A b = Outcome.returned (x, z) ∧
      x.length = c.length ∧ z = dot c x := by
  refine ⟨List.replicate c.length 0, 0, rfl, by simp, ?_⟩
  exact (dot_replicate_zero c c.length).symm

/-! The three scenarios (C4, C5, C6) -/

/-- C4, scenario 1 evaluated: for `c = [-1, -1]`, `A = [[1, 1]]`, `b = [4]` the call
returns the vector `[0, 0]` and the objective value `0`; the vector is neither
`[4, 0]` nor `[0, 4]` and the value is not `-4`, although `[4, 0]` is feasible with
cost `-4` and no feasible point costs less. -/
theorem scenario1_returns_zero :
    solveCall [-1, -1] [[1, 1]] [4] = Outcome.returned ([0, 0], 0) ∧
    ([0, 0] : Vec) ≠ [4, 0] ∧ ([0, 0] : Vec) ≠ [0, 4] ∧ (0 : ℚ) ≠ -4 ∧
    Feasible 0 2 [[1, 1]] [4] [4, 0] ∧ dot [-1, -1] [4, 0] = -4 ∧
    (∀ x, Feasible 0 2 [[1, 1]] [4] x → -4 ≤ dot [-1, -1] x) := by
  refine ⟨by decide, by decide, by decide, by norm_num, ?_, ?_, ?_⟩
  · simp [Feasible, RowsHold, dot]
  · simp [dot]
  · rintro x ⟨hlen, _, hr⟩
    obtain ⟨p, q, rfl⟩ := List.length_eq_two.mp hlen
    simp [RowsHold, dot] at hr ⊢
    linarith

/-- C5, scenario 2 evaluated: for `c = [1]`, `A = [[1], [-1]]`, `b = [-1, -1]` no
point is feasible, and the call returns the pair `([0], 0)`.  That is the very
value it returns for `c = [1]`, `A = [[1]]`, `b = [1]`, a program whose genuine
optimum is `x = [0]` with cost `0`, so the caller cannot tell the two apart. -/
theorem scenario2_returns_zero :
    (∀ x, ¬ Feasible 0 1 [[1], [-1]] [-1, -1] x) ∧
    solveCall [1] [[1], [-1]] [-1, -1] = Outcome.returned ([0], 0) ∧
    solveCall [1] [[1], [-1]] [-1, -1] = solveCall [1] [[1]] [1] ∧
    Feasible 0 1 [[1]] [1] [0] ∧
    (∀ x, Feasible 0 1 [[1]] [1] x → dot [1] [0] ≤ dot [1] x) := by
  refine ⟨?_, by decide, by decide, ?_, ?_⟩
  · intro x hx
    obtain ⟨a, rfl, ha, hr⟩ := (feasible_one_iff _ _ _ _).mp hx
    simp [RowsHold, dot] at hr ha
    linarith [hr.1]
  · simp [Feasible, RowsHold, dot]
  · intro x hx
    obtain ⟨a, rfl, ha, _⟩ := (feasible_one_iff _ _ _ _).mp hx
    simp [dot] at ha ⊢
    exact ha

/-- C6, scenario 3 evaluated: for `c = [-1]`, `A = [[-1]]`, `b = [0]` the cost is
unbounded below over the feasible set (every bound `z` is undercut by a feasible
point), and the call returns the finite pair `([0], 0)`, the very value it returns
for the bounded program `c = [2]`, `A = [[1]]`, `b = [3]` whose optimum is
`x = [0]` with cost `0`. -/
theorem scenario3_returns_zero :
    (∀ z : ℚ, ∃ x, Feasible 0 1 [[-1]] [0] x ∧ dot [-1] x < z) ∧
    solveCall [-1] [[-1]] [0] = Outcome.returned ([0], 0) ∧
    solveCall [-1] [[-1]] [0] = solveCall [2] [[1]] [3] ∧
    Feasible 0 1 [[1]] [3] [0] ∧
    (∀ x, Feasible 0 1 [[1]] [3] x → dot [2] [0] ≤ dot [2] x) := by
  refine ⟨?_, by decide, by decide, ?_, ?_⟩
  · intro z
    refine ⟨[max 0 (-z) + 1], ?_, ?_⟩
    · have h0 : (0 : ℚ) ≤ max 0 (-z) := le_max_left _ _
      simp [Feasible, RowsHold, dot]
      linarith
    · have h1 : -z ≤ max 0 (-z) := le_max_right _ _
      simp [dot]
      linarith
  · simp [Feasible, RowsHold, dot]
  · intro x hx
    obtain ⟨a, rfl, ha, _⟩ := (feasible_one_iff _ _ _ _).mp hx
    simp [dot] at ha ⊢
    exact ha

/-! Input shapes (C7) -/

/-- C7, evaluated at two malformed inputs: a row of `A` shorter than `c`
(`c = [1, 2]`, `A = [[1]]`, `b = [3]`), and more rows in `A` than entries in `b`
(`c = [1]`, `A = [[1]]`, `b = []`).  In both the dimensions do not match, the
constructor stores the arguments as given, and the call returns a solution vector
and an objective value instead of an invalid-input error; for the second input the
returned pair is the one returned for the well-formed `c = [1]`, `A = [[1]]`,
`b = [1]`. -/
theorem mismatched_input_returns :
    (¬ DimsMatch [1, 2] [[1]] [3] ∧
      SimplexSolver.init [1, 2] [[1]] [3] = SimplexSolver.mk [1, 2] [[1]] [3] ∧
      solveCall [1, 2] [[1]] [3] = Outcome.returned ([0, 0], 0)) ∧
    (¬ DimsMatch [1] [[1]] [] ∧
      SimplexSolver.init [1] [[1]] [] = SimplexSolver.mk [1] [[1]] [] ∧
      solveCall [1] [[1]] [] = Outcome.returned ([0], 0) ∧
      DimsMatch [1] [[1]] [1] ∧
      solveCall [1] [[1]] [] = solveCall [1] [[1]] [1]) := by
  decide

/-! Determinism, the placeholder value and the frame (C8, C9, C10) -/

/-- C8: two solvers constructed from the same `c`, `A`, `b` return the same pair
from `solve()`, and a second `solve()` on the same object returns the same pair as
the first. -/
theorem solve_deterministic (c : Vec) (A : Mat) (b : Vec) (s₁ s₂ : SimplexSolver)
    (h₁ : s₁ = SimplexSolver.init c A b) (h₂ : s₂ = SimplexSolver.init c A b) :
    s₁.solve.1 = s₂.solve.1 ∧ s₁.solve.2.solve.1 = s₁.solve.1 := by
  subst h₁ h₂
  exact ⟨rfl, rfl⟩

/-- The determinism statement at `c = [-1, -1]`, `A = [[1, 1]]`, `b = [4]`. -/
theorem solve_deterministic_witness :
    (SimplexSolver.mk [-1, -1] [[1, 1]] [4] = SimplexSolver.init [-1, -1] [[1, 1]] [4]) ∧
    ((SimplexSolver.mk [-1, -1] [[1, 1]] [4]).solve.1
        = (SimplexSolver.init [-1, -1] [[1, 1]] [4]).solve.1 ∧
      (SimplexSolver.mk [-1, -1] [[1, 1]] [4]).solve.2.solve.1
        = (SimplexSolver.mk [-1, -1] [[1, 1]] [4]).solve.1) :=
  ⟨rfl, solve_deterministic [-1, -1] [[1, 1]] [4] _ _ rfl rfl⟩

/-- C9: for every `c`, `A` and `b`, matching dimensions or not,
`SimplexSolver(c, A, b).solve()` returns the vector of `length c` zeros and the
objective value `0`; any other input whose cost vector has the same length gets
the same result. -/
theorem solve_is_placeholder (c c' : Vec) (A A' : Mat) (b b' : Vec)
    (h : c'.length = c.length) :
    solveCall c A b = Outcome.returned (List.replicate c.length 0, 0) ∧
    solveCall c' A' b' = solveCall c A b := by
  refine ⟨rfl, ?_⟩
  rw [solveCall_eq, solveCall_eq, h]

/-- The placeholder statement at two inputs of different shapes whose cost vectors
both have two entries. -/
theorem solve_is_placeholder_witness :
    ([7, -3] : Vec).length = ([1, 2] : Vec).length ∧
    (solveCall [1, 2] [[1, 1]] [4] = Outcome.returned (List.replicate ([1, 2] : Vec).length 0, 0) ∧
      solveCall [7, -3] [[5], [6, 8, 9]] [] = solveCall [1, 2] [[1, 1]] [4]) :=
  ⟨by decide, solve_is_placeholder [1, 2] [7, -3] [[1, 1]] [[5], [6, 8, 9]] [4] [] (by decide)⟩

/-- C10: `solve()` leaves the solver as it found it, and the stored cost vector,
constraint matrix and right-hand side after the call are the `c`, `A`, `b` given to
the constructor. -/
theorem solve_preserves_problem_data (c : Vec) (A : Mat) (b : Vec) :
    (∀ s : SimplexSolver, s.solve.2.c_ = s.c_ ∧ s.solve.2.A_ = s.A_ ∧ s.solve.2.b_ = s.b_) ∧
    (SimplexSolver.init c A b).solve.2.c_ = c ∧
    (SimplexSolver.init c A b).solve.2.A_ = A ∧
    (SimplexSolver.init c A b).solve.2.b_ = b :=
  ⟨fun _ => ⟨rfl, rfl, rfl⟩, rfl, rfl, rfl⟩
